import Mathlib

/-!
Shallow embedding of the Lua scripting-host bridge (`Source/lua/lua.cpp`)
of devilutionX, together with proofs about its observable behaviour.

The embedded Lua interpreter itself (sol2 / liblua) is an external runtime:
it is modelled as an oracle (`LuaOracle`) supplying the outcome of protected
script execution, of zero-argument handler calls, and the runtime's default
stringification.  The host-side control flow — `CheckResult`, `RunScript`,
`LuaEvent`, `RunLua`, `LuaInitialize` (here `LuaInit`), `LuaShutdown`,
`LuaPanic` — is translated directly from the source.  Logging and asset I/O
are external collaborators of the repository slice; their observable effects
(log entries emitted, asset lookup results) are made explicit in the return
values.
-/

namespace DevilutionLua

/-- The dynamic type tags of Lua values as seen through sol
(`sol::type`). -/
inductive LuaType where
  | nil
  | boolean
  | number
  | string
  | table
  | function
  deriving DecidableEq, Repr

/-- A script-level Lua value, abstracted to what the host code inspects:
its type tag, its text when it is a string, its numeric value when it is a
number, and an identity for functions and tables. -/
inductive LuaObject where
  | nil
  | boolean (b : Bool)
  | number (n : Int)
  | str (s : String)
  | function (id : Nat)
  | table (id : Nat)
  deriving DecidableEq, Repr

/-- `sol::object::get_type()`: the type tag of a value. -/
def LuaObject.luaType : LuaObject → LuaType
  | .nil => .nil
  | .boolean _ => .boolean
  | .number _ => .number
  | .str _ => .string
  | .function _ => .function
  | .table _ => .table

/-- Outcome of a sol protected call (`sol::protected_function_result`):
either valid and carrying the top-of-stack result value, or invalid and
carrying the error payload object. -/
inductive ProtectedResult where
  | valid (value : LuaObject)
  | invalid (payload : LuaObject)
  deriving DecidableEq, Repr

/-- Severities of the logging collaborator used by this slice. -/
inductive LogSeverity where
  | error
  | debug
  deriving DecidableEq, Repr

/-- One structured log entry: severity plus the fully formatted text. -/
structure LogEntry where
  severity : LogSeverity
  text : String
  deriving DecidableEq, Repr

/-- Modelled from the spec: the logging collaborator (`utils/log.hpp`, not
part of this source slice) formats with fmt-style positional replacement —
each "\x7b\x7d" placeholder is replaced by the next argument's text, and
surplus arguments (arguments with no matching placeholder) are ignored.
This is the worker on character lists. -/
def fmtFormatAux : List Char → List String → List Char
  | [], _ => []
  | '\x7b' :: '\x7d' :: rest, a :: args => a.data ++ fmtFormatAux rest args
  | c :: rest, args => c :: fmtFormatAux rest args

/-- Modelled from the spec: fmt-style formatting of a format string with a
list of already-stringified arguments. -/
def fmtFormat (f : String) (args : List String) : String :=
  String.mk (fmtFormatAux f.data args)

/-- The script-visible state of the Runtime Instance, abstracted to what the
host code observes: the result of the nested global lookup
`Events[name].Trigger` (`traverse_get`), plus an abstract tag standing for
the rest of the global state. -/
structure LuaGlobals where
  triggerGet : String → Option LuaObject
  mark : Nat

/-- The external Lua runtime, as an oracle: protected execution of source
text (`sol::state::safe_script`), protected zero-argument invocation of a
function value (`fn()`), the runtime's default stringification
(`sol::utility::to_string`), and the fresh global state right after
construction and binding installation. -/
structure LuaOracle where
  safe_script : LuaGlobals → String → LuaGlobals × ProtectedResult
  call0 : LuaGlobals → Nat → LuaGlobals × ProtectedResult
  to_string : LuaObject → String
  freshGlobals : LuaGlobals

/-- `result.get<std::string>()` on an invalid result whose payload is a
string: the payload's text. -/
def LuaObject.asStringPayload : LuaObject → String
  | .str s => s
  | _ => ""

/-- `CheckResult`: the shared validity check.  If the result is invalid and
the error payload is a string, one error-severity entry "Lua error: <text>"
is logged; if invalid with a non-string payload, one error-severity entry
"Unknown Lua error" is logged.  Returns the validity flag together with the
log entries emitted. -/
def CheckResult (result : ProtectedResult) : Bool × List LogEntry :=
  match result with
  | .valid _ => (true, [])
  | .invalid payload =>
    if payload.luaType = .string then
      (false, [⟨.error, fmtFormat "Lua error: \x7b\x7d" [payload.asStringPayload]⟩])
    else
      (false, [⟨.error, "Unknown Lua error"⟩])

/-- The result of a `FindAsset` / `OpenAsset` / `read` round trip with the
asset subsystem (an external collaborator): whether the path resolves
(`ref.ok()`, with the asset's size), whether opening succeeds
(`handle.ok()`), and what a full read of `size` bytes yields (`none` on
read failure). -/
structure AssetProvider where
  findAsset : String → Option Nat
  openAsset : String → Bool
  readAsset : String → Option String

/-- Observable outcome of `RunScript`: the resulting global state, the log
entries emitted, and the script texts actually handed to protected
execution (empty when the call was a no-op). -/
structure RunOutcome where
  globals : LuaGlobals
  logs : List LogEntry
  executed : List String

/-- `RunScript(path)`: resolve the path with the asset subsystem; return
silently if the asset is not found, cannot be opened, or (for a non-empty
asset) cannot be fully read.  Otherwise execute the read content (the empty
string for a zero-size asset) under protected execution and apply
`CheckResult`, discarding the success value. -/
def RunScript (L : LuaOracle) (P : AssetProvider) (g : LuaGlobals)
    (path : String) : RunOutcome :=
  match P.findAsset path with
  | none => ⟨g, [], []⟩
  | some size =>
    if P.openAsset path then
      if 0 < size then
        match P.readAsset path with
        | none => ⟨g, [], []⟩
        | some text =>
          let r := L.safe_script g text
          ⟨r.1, (CheckResult r.2).2, [text]⟩
      else
        let r := L.safe_script g ""
        ⟨r.1, (CheckResult r.2).2, [""]⟩
    else ⟨g, [], []⟩

/-- `LuaPanic(message)`: logs one error-severity entry.  The format string
passed to the logger is
"Lua is in a panic state and will now abort() the application:\n" and the
panic message (defaulted to "unknown error") is passed as an argument. -/
def LuaPanic (message : Option String) : List LogEntry :=
  [⟨.error,
    fmtFormat "Lua is in a panic state and will now abort() the application:\n"
      [message.getD "unknown error"]⟩]

/-- Observable outcome of `LuaEvent`: resulting global state, log entries
emitted, and the identities of the handler functions invoked (each with no
arguments), in order.  `LuaEvent` returns no value to its caller: any
handler return value is discarded. -/
structure EventOutcome where
  globals : LuaGlobals
  logs : List LogEntry
  invoked : List Nat

/-- `LuaEvent(name)`: look up `Events[name].Trigger` via `traverse_get`.
If the lookup fails or the value is not a function, log one error naming
the event and return.  Otherwise invoke the function with no arguments
under protected execution and apply `CheckResult`. -/
def LuaEvent (L : LuaOracle) (g : LuaGlobals) (name : String) : EventOutcome :=
  match g.triggerGet name with
  | some (.function id) =>
    let r := L.call0 g id
    ⟨r.1, (CheckResult r.2).2, [id]⟩
  | some _ =>
    ⟨g, [⟨.error, fmtFormat "Events.\x7b\x7d.Trigger is not a function" [name]⟩], []⟩
  | none =>
    ⟨g, [⟨.error, fmtFormat "Events.\x7b\x7d.Trigger is not a function" [name]⟩], []⟩

/-- `RunLua(code)`: execute the source text under protected execution.  On
failure return the error channel with the payload's text when the payload
is a string, and "Unknown Lua error" otherwise; on success return the
success channel with the runtime's textual form of the top-of-stack result
value. -/
def RunLua (L : LuaOracle) (g : LuaGlobals) (code : String) :
    LuaGlobals × Except String String :=
  let r := L.safe_script g code
  match r.2 with
  | .invalid payload =>
    if payload.luaType = .string then
      (r.1, .error payload.asStringPayload)
    else
      (r.1, .error "Unknown Lua error")
  | .valid v => (r.1, .ok (L.to_string v))

/-- The standard Lua capability groups sol can open (`sol::lib`). -/
inductive LuaLib where
  | base
  | package
  | coroutine
  | table
  | string
  | math
  | utf8
  | debug
  | iolib
  | oslib
  | bit32
  | ffi
  | jit
  deriving DecidableEq, Repr

/-- The libraries opened by `LuaInitialize`: the fixed seven, plus the
debug library only in debug builds (`#ifdef _DEBUG`). -/
def luaOpenedLibraries (debugBuild : Bool) : List LuaLib :=
  [.base, .package, .coroutine, .table, .string, .math, .utf8]
    ++ (if debugBuild then [.debug] else [])

/-- One observable step of initialization, in the order performed. -/
inductive InitStep where
  | constructRuntime
  | openLib (lib : LuaLib)
  | setGlobal (g : String)
  | registerTable (t : String)
  | runScriptStep (path : String)
  | raiseEvent (name : String)
  deriving DecidableEq, Repr

/-- Observable outcome of `LuaInitialize`: final global state, all log
entries in order, the ordered step trace, the script texts executed, and
the event handlers invoked. -/
structure InitOutcome where
  globals : LuaGlobals
  logs : List LogEntry
  steps : List InitStep
  executed : List String
  invoked : List Nat

/-- `LuaInitialize` (named `LuaInit` here): construct the runtime with the
panic callback installed, open the allow-listed libraries, register the
globals `print` and `_VERSION` and the `devilutionx` binding table, run
"lua/init.lua" then "lua/user.lua" via `RunScript`, and finally raise the
"OnGameBoot" event via `LuaEvent`. -/
def LuaInit (L : LuaOracle) (P : AssetProvider) (debugBuild : Bool) : InitOutcome :=
  let o1 := RunScript L P L.freshGlobals "lua/init.lua"
  let o2 := RunScript L P o1.globals "lua/user.lua"
  let e3 := LuaEvent L o2.globals "OnGameBoot"
  { globals := e3.globals
    logs := o1.logs ++ o2.logs ++ e3.logs
    steps := [.constructRuntime]
      ++ (luaOpenedLibraries debugBuild).map .openLib
      ++ [.setGlobal "print", .setGlobal "_VERSION", .registerTable "devilutionx",
          .runScriptStep "lua/init.lua", .runScriptStep "lua/user.lua",
          .raiseEvent "OnGameBoot"]
    executed := o1.executed ++ o2.executed
    invoked := e3.invoked }

/-- `LuaShutdown`: the optional global runtime state is reset to the empty
optional (`luaState = std::nullopt`), whatever it held. -/
def LuaShutdown (_luaState : Option LuaGlobals) : Option LuaGlobals :=
  none

/-- The allow-list of capability groups as the spec words it: base
operations, module loading, coroutines, containers, string operations,
math, Unicode text utilities, plus the debug-introspection group only in
debug builds.  Written from the spec, to be compared with
`luaOpenedLibraries`, which is written from the source. -/
def specAllowedLibraries (debugBuild : Bool) : List LuaLib :=
  [.base, .package, .coroutine, .table, .string, .math, .utf8]
    ++ (if debugBuild then [.debug] else [])

/-- A global state in which no `Events[name].Trigger` lookup resolves. -/
def noTriggerGlobals : LuaGlobals :=
  ⟨fun _ => none, 0⟩

/-- A global state in which `Events["OnGameBoot"].Trigger` resolves to the
function with identity 7 and nothing else resolves. -/
def bootGlobals : LuaGlobals :=
  ⟨fun n => if n = "OnGameBoot" then some (.function 7) else none, 1⟩

/-- A concrete external-runtime oracle used to instantiate the theorems:
"return 1+1" evaluates to the number 2; "return nil+1" fails with a string
error payload; "tableerror" fails with a table payload; "emptyerror" fails
with an empty-string payload; the function with identity 7 fails with the
string payload "boom" when called. -/
def demoOracle : LuaOracle where
  safe_script := fun g code =>
    if code = "return 1+1" then (g, .valid (.number 2))
    else if code = "return nil+1" then
      (g, .invalid (.str "attempt to perform arithmetic on a nil value"))
    else if code = "tableerror" then (g, .invalid (.table 0))
    else if code = "emptyerror" then (g, .invalid (.str ""))
    else (g, .valid .nil)
  call0 := fun g id =>
    if id = 7 then (g, .invalid (.str "boom")) else (g, .valid .nil)
  to_string := fun v =>
    match v with
    | .nil => "nil"
    | .boolean b => toString b
    | .number n => toString n
    | .str s => s
    | .function id => "function: " ++ toString id
    | .table id => "table: " ++ toString id
  freshGlobals := noTriggerGlobals

/-- An asset provider on which every lookup fails: no path is found. -/
def missingProvider : AssetProvider :=
  ⟨fun _ => none, fun _ => false, fun _ => none⟩

/-- An asset provider serving exactly "lua/init.lua", whose 12-byte content
is the script "return nil+1". -/
def initErrProvider : AssetProvider where
  findAsset := fun p => if p = "lua/init.lua" then some 12 else none
  openAsset := fun _ => true
  readAsset := fun p => if p = "lua/init.lua" then some "return nil+1" else none

/-- Formatting with no remaining arguments copies the text unchanged. -/
theorem fmtFormatAux_nil_args : ∀ l : List Char, fmtFormatAux l [] = l := by
  intro l
  induction l with
  | nil => rfl
  | cons c rest ih =>
    cases rest with
    | nil => simp [fmtFormatAux]
    | cons d rest2 =>
      by_cases hc : c = '\x7b'
      · by_cases hd : d = '\x7d'
        · subst hc; subst hd
          simp [fmtFormatAux] at ih ⊢
          exact ih
        · simp [fmtFormatAux, hc, hd] at ih ⊢
          exact ih
      · simp [fmtFormatAux, hc] at ih ⊢
        exact ih

/-- A format text containing no opening brace is returned unchanged:
every argument is surplus and is ignored. -/
theorem fmtFormatAux_no_brace :
    ∀ l : List Char, ∀ args : List String, '\x7b' ∉ l → fmtFormatAux l args = l := by
  intro l args
  induction l with
  | nil => intro _; rfl
  | cons c rest ih =>
    intro h
    have hc : c ≠ '\x7b' := fun e => h (e ▸ List.mem_cons_self c rest)
    have hrest : '\x7b' ∉ rest := fun hm => h (List.mem_cons_of_mem c hm)
    cases rest with
    | nil => simp [fmtFormatAux, hc]
    | cons d rest2 =>
      simp [fmtFormatAux, hc]
      exact ih hrest

/-- Evaluation of the "Lua error: \x7b\x7d" format at an arbitrary
argument. -/
theorem fmtFormat_luaError (s : String) :
    fmtFormat "Lua error: \x7b\x7d" [s] = "Lua error: " ++ s := by
  apply String.ext
  simp [fmtFormat, fmtFormatAux, fmtFormatAux_nil_args, String.data_append]

/-- Evaluation of the "Events.\x7b\x7d.Trigger is not a function" format at
an arbitrary argument. -/
theorem fmtFormat_eventError (n : String) :
    fmtFormat "Events.\x7b\x7d.Trigger is not a function" [n]
      = "Events." ++ n ++ ".Trigger is not a function" := by
  apply String.ext
  simp [fmtFormat, fmtFormatAux, fmtFormatAux_nil_args, String.data_append]

/-- The panic log text is the bare format string for every message: the
format string contains no placeholder, so the message argument is ignored
by the formatter. -/
theorem luaPanic_fixed_text (m : Option String) :
    LuaPanic m =
      [⟨.error, "Lua is in a panic state and will now abort() the application:\n"⟩] := by
  unfold LuaPanic fmtFormat
  rw [fmtFormatAux_no_brace _ _ (by decide)]

/-- C1: for every script source text whose protected execution completes
with a valid top-of-stack value, `RunLua` returns the success channel
populated with the runtime's textual representation of that value. -/
theorem runLua_success (L : LuaOracle) (g g2 : LuaGlobals) (code : String)
    (v : LuaObject) (h : L.safe_script g code = (g2, .valid v)) :
    (RunLua L g code).2 = .ok (L.to_string v) := by
  simp [RunLua, h]

/-- Witness for C1: on the concrete oracle, "return 1+1" executes to the
number 2 and `RunLua` returns success with the text "2". -/
theorem runLua_success_witness :
    demoOracle.safe_script noTriggerGlobals "return 1+1"
        = (noTriggerGlobals, .valid (.number 2))
    ∧ (RunLua demoOracle noTriggerGlobals "return 1+1").2 = .ok "2" := by
  constructor
  · rfl
  · exact runLua_success demoOracle noTriggerGlobals noTriggerGlobals
      "return 1+1" (.number 2) rfl

/-- Counterexample to C2 as stated: when the error payload is not text the
returned message is "Unknown Lua error", not "Unknown error"; moreover a
failure whose payload is the empty string yields an empty message, so the
message is not non-empty in every failure case. -/
theorem runLua_failure_counterexample :
    (RunLua demoOracle noTriggerGlobals "tableerror").2 = .error "Unknown Lua error"
    ∧ "Unknown Lua error" ≠ "Unknown error"
    ∧ (RunLua demoOracle noTriggerGlobals "emptyerror").2 = .error "" := by
  refine ⟨rfl, by decide, rfl⟩

/-- C2 (amended): for every script source text whose protected execution
fails, `RunLua` returns the error channel; the error value is the payload's
text when the payload is a string and exactly "Unknown Lua error" when it
is not, and the message is non-empty whenever the payload is not text or is
a non-empty string. -/
theorem runLua_failure (L : LuaOracle) (g g2 : LuaGlobals) (code : String)
    (p : LuaObject) (h : L.safe_script g code = (g2, .invalid p)) :
    ∃ msg, (RunLua L g code).2 = .error msg
      ∧ (∀ s, p = .str s → msg = s)
      ∧ (p.luaType ≠ .string → msg = "Unknown Lua error")
      ∧ ((p.luaType ≠ .string ∨ ∃ s, p = .str s ∧ s ≠ "") → msg ≠ "") := by
  cases p with
  | str s =>
    refine ⟨s, ?_, ?_, ?_, ?_⟩
    · simp [RunLua, h, LuaObject.luaType, LuaObject.asStringPayload]
    · intro t ht; cases ht; rfl
    · intro hne; exact absurd rfl hne
    · rintro (hne | ⟨t, ht, hne⟩)
      · exact absurd rfl hne
      · cases ht; exact hne
  | nil =>
    refine ⟨"Unknown Lua error", ?_, ?_, ?_, ?_⟩
    · simp [RunLua, h, LuaObject.luaType]
    · intro s hs; cases hs
    · intro _; rfl
    · intro _; decide
  | boolean b =>
    refine ⟨"Unknown Lua error", ?_, ?_, ?_, ?_⟩
    · simp [RunLua, h, LuaObject.luaType]
    · intro s hs; cases hs
    · intro _; rfl
    · intro _; decide
  | number n =>
    refine ⟨"Unknown Lua error", ?_, ?_, ?_, ?_⟩
    · simp [RunLua, h, LuaObject.luaType]
    · intro s hs; cases hs
    · intro _; rfl
    · intro _; decide
  | function id =>
    refine ⟨"Unknown Lua error", ?_, ?_, ?_, ?_⟩
    · simp [RunLua, h, LuaObject.luaType]
    · intro s hs; cases hs
    · intro _; rfl
    · intro _; decide
  | table id =>
    refine ⟨"Unknown Lua error", ?_, ?_, ?_, ?_⟩
    · simp [RunLua, h, LuaObject.luaType]
    · intro s hs; cases hs
    · intro _; rfl
    · intro _; decide

/-- Witness for the amended C2: "return nil+1" fails with a string payload
on the concrete oracle and `RunLua` returns exactly that text, which is
non-empty. -/
theorem runLua_failure_witness :
    demoOracle.safe_script noTriggerGlobals "return nil+1"
        = (noTriggerGlobals,
           .invalid (.str "attempt to perform arithmetic on a nil value"))
    ∧ (RunLua demoOracle noTriggerGlobals "return nil+1").2
        = .error "attempt to perform arithmetic on a nil value"
    ∧ "attempt to perform arithmetic on a nil value" ≠ "" := by
  refine ⟨rfl, ?_, by decide⟩
  obtain ⟨msg, hmsg, hstr, _, _⟩ :=
    runLua_failure demoOracle noTriggerGlobals noTriggerGlobals "return nil+1"
      (.str "attempt to perform arithmetic on a nil value") rfl
  rw [hmsg, hstr "attempt to perform arithmetic on a nil value" rfl]

/-- C3 evaluation: at a concrete provided panic message, the emitted
error-severity log entry is the bare fixed text — the panic message is not
contained in it, because the format string passed to the logger has no
placeholder.  The source contradicts the documented intent of logging the
panic message. -/
theorem luaPanic_drops_message :
    LuaPanic (some "boom")
        = [⟨.error, "Lua is in a panic state and will now abort() the application:\n"⟩]
    ∧ ¬ List.IsInfix "boom".data
        "Lua is in a panic state and will now abort() the application:\n".data
    ∧ LuaPanic (some "boom") = LuaPanic none := by
  refine ⟨luaPanic_fixed_text (some "boom"), by decide, ?_⟩
  rw [luaPanic_fixed_text, luaPanic_fixed_text]

/-- C4: whenever `Events[name].Trigger` does not resolve or resolves to a
non-function value, `LuaEvent` emits exactly one error-severity log entry
naming the event, invokes no handler, and leaves the script-visible state
unchanged. -/
theorem luaEvent_missing_handler (L : LuaOracle) (g : LuaGlobals) (name : String)
    (h : ∀ id, g.triggerGet name ≠ some (.function id)) :
    LuaEvent L g name =
      ⟨g, [⟨.error, "Events." ++ name ++ ".Trigger is not a function"⟩], []⟩ := by
  unfold LuaEvent
  cases hg : g.triggerGet name with
  | none => rw [fmtFormat_eventError]
  | some obj =>
    cases obj with
    | function id => exact absurd hg (h id)
    | nil => rw [fmtFormat_eventError]
    | boolean b => rw [fmtFormat_eventError]
    | number n => rw [fmtFormat_eventError]
    | str s => rw [fmtFormat_eventError]
    | table id => rw [fmtFormat_eventError]

/-- Witness for C4: on a state with no registered triggers, `LuaEvent` for
"OnGameBoot" emits exactly the one error entry naming the event, invokes
nothing, and returns the state unchanged. -/
theorem luaEvent_missing_handler_witness :
    (∀ id, noTriggerGlobals.triggerGet "OnGameBoot" ≠ some (.function id))
    ∧ LuaEvent demoOracle noTriggerGlobals "OnGameBoot" =
        ⟨noTriggerGlobals,
         [⟨.error, "Events.OnGameBoot.Trigger is not a function"⟩], []⟩ := by
  have h : ∀ id, noTriggerGlobals.triggerGet "OnGameBoot" ≠ some (.function id) := by
    intro id
    simp [noTriggerGlobals]
  refine ⟨h, ?_⟩
  rw [luaEvent_missing_handler demoOracle noTriggerGlobals "OnGameBoot" h]
  exact rfl

/-- C5: whenever `Events[name].Trigger` resolves to a function, `LuaEvent`
invokes it exactly once (with no arguments, by the shape of the invocation
oracle), discards its return value, and when the call fails exactly one
error-severity log entry is produced, while a successful call produces no
log entry; no fault propagates to the host caller in either case. -/
theorem luaEvent_callable (L : LuaOracle) (g : LuaGlobals) (name : String)
    (id : Nat) (h : g.triggerGet name = some (.function id)) :
    (LuaEvent L g name).invoked = [id]
    ∧ (LuaEvent L g name).globals = (L.call0 g id).1
    ∧ (∀ p, (L.call0 g id).2 = .invalid p →
        ∃ t, (LuaEvent L g name).logs = [⟨.error, t⟩])
    ∧ (∀ v, (L.call0 g id).2 = .valid v → (LuaEvent L g name).logs = []) := by
  refine ⟨?_, ?_, ?_, ?_⟩
  · simp [LuaEvent, h]
  · simp [LuaEvent, h]
  · intro p hp
    simp [LuaEvent, h, CheckResult, hp]
    by_cases hs : p.luaType = LuaType.string
    · exact ⟨fmtFormat "Lua error: \x7b\x7d" [p.asStringPayload], by simp [hs]⟩
    · exact ⟨"Unknown Lua error", by simp [hs]⟩
  · intro v hv
    simp [LuaEvent, h, CheckResult, hv]

/-- Witness for C5: on a state registering function 7 for "OnGameBoot" and
an oracle on which that call fails with the string "boom", `LuaEvent`
invokes exactly handler 7 and logs exactly one error entry. -/
theorem luaEvent_callable_witness :
    bootGlobals.triggerGet "OnGameBoot" = some (.function 7)
    ∧ (LuaEvent demoOracle bootGlobals "OnGameBoot").invoked = [7]
    ∧ (LuaEvent demoOracle bootGlobals "OnGameBoot").logs
        = [⟨.error, "Lua error: boom"⟩] := by
  refine ⟨rfl, (luaEvent_callable demoOracle bootGlobals "OnGameBoot" 7 rfl).1, ?_⟩
  have := fmtFormat_luaError "boom"
  simp [LuaEvent, bootGlobals, demoOracle, CheckResult, LuaObject.luaType,
    LuaObject.asStringPayload] at this ⊢
  rw [this]

/-- C6: when the asset subsystem reports the path as not found, or the
found asset cannot be opened, or a non-empty asset cannot be fully read,
`RunScript` is a silent no-op: no log entry, no script executed, the
script-visible state returned unchanged. -/
theorem runScript_silent_noop (L : LuaOracle) (P : AssetProvider)
    (g : LuaGlobals) (path : String)
    (h : P.findAsset path = none
      ∨ ∃ size, P.findAsset path = some size
          ∧ (P.openAsset path = false
            ∨ (0 < size ∧ P.readAsset path = none))) :
    RunScript L P g path = ⟨g, [], []⟩ := by
  rcases h with hnf | ⟨size, hf, hrest⟩
  · simp [RunScript, hnf]
  · rcases hrest with hopen | ⟨hpos, hread⟩
    · simp [RunScript, hf, hopen]
    · simp [RunScript, hf, hpos, hread]

/-- Witness for C6: on the provider finding nothing, `RunScript` for
"lua/init.lua" returns the state unchanged with no logs and nothing
executed; likewise when the open fails after a successful find, and when
the read of a non-empty asset fails. -/
theorem runScript_silent_noop_witness :
    missingProvider.findAsset "lua/init.lua" = none
    ∧ RunScript demoOracle missingProvider noTriggerGlobals "lua/init.lua"
        = ⟨noTriggerGlobals, [], []⟩ := by
  refine ⟨rfl, ?_⟩
  exact runScript_silent_noop demoOracle missingProvider noTriggerGlobals
    "lua/init.lua" (Or.inl rfl)

/-- C7: when the asset is found, opened, and fully read, `RunScript`
executes exactly the read content; if that execution fails it emits exactly
one error-severity log entry — "Lua error: " followed by the payload's text
when the payload is a string, the generic "Unknown Lua error" otherwise —
and if the execution succeeds the result value is discarded with no log
entry.  `RunScript` returns nothing, so no fault reaches the caller. -/
theorem runScript_error_logged (L : LuaOracle) (P : AssetProvider)
    (g : LuaGlobals) (path text : String) (size : Nat)
    (hf : P.findAsset path = some size) (ho : P.openAsset path = true)
    (hs : 0 < size) (hr : P.readAsset path = some text) :
    (RunScript L P g path).executed = [text]
    ∧ (∀ g2 p, L.safe_script g text = (g2, .invalid p) →
        (RunScript L P g path).logs =
          [⟨.error, if p.luaType = LuaType.string
              then "Lua error: " ++ p.asStringPayload
              else "Unknown Lua error"⟩])
    ∧ (∀ g2 v, L.safe_script g text = (g2, .valid v) →
        (RunScript L P g path).logs = []) := by
  refine ⟨?_, ?_, ?_⟩
  · simp [RunScript, hf, ho, hs, hr]
  · intro g2 p hp
    simp [RunScript, hf, ho, hs, hr, hp, CheckResult]
    by_cases hstr : p.luaType = LuaType.string
    · simp [hstr, fmtFormat_luaError]
    · simp [hstr]
  · intro g2 v hv
    simp [RunScript, hf, ho, hs, hr, hv, CheckResult]

/-- Witness for C7: on the provider serving "return nil+1" as
"lua/init.lua" and the concrete oracle failing with a string payload,
`RunScript` executes the content and logs exactly one error entry
containing the script's error text. -/
theorem runScript_error_logged_witness :
    initErrProvider.findAsset "lua/init.lua" = some 12
    ∧ (RunScript demoOracle initErrProvider noTriggerGlobals "lua/init.lua").executed
        = ["return nil+1"]
    ∧ (RunScript demoOracle initErrProvider noTriggerGlobals "lua/init.lua").logs
        = [⟨.error, "Lua error: attempt to perform arithmetic on a nil value"⟩] := by
  refine ⟨rfl, ?_, ?_⟩
  · exact (runScript_error_logged demoOracle initErrProvider noTriggerGlobals
      "lua/init.lua" "return nil+1" 12 rfl rfl (by decide) rfl).1
  · have h := (runScript_error_logged demoOracle initErrProvider noTriggerGlobals
      "lua/init.lua" "return nil+1" 12 rfl rfl (by decide) rfl).2.1 noTriggerGlobals
      (.str "attempt to perform arithmetic on a nil value") rfl
    rw [h]
    rfl

/-- Counterexample to C8 as stated: with both bootstrap scripts absent,
initialization runs to completion and raises the boot event, but the
failure to find the scripts is NOT logged — the only log entry of the whole
initialization is the missing-boot-handler error, which mentions neither
script path. -/
theorem luaInit_find_failure_not_logged :
    (LuaInit demoOracle missingProvider false).executed = []
    ∧ (LuaInit demoOracle missingProvider false).logs
        = [⟨.error, "Events.OnGameBoot.Trigger is not a function"⟩]
    ∧ InitStep.raiseEvent "OnGameBoot" ∈ (LuaInit demoOracle missingProvider false).steps := by
  refine ⟨rfl, ?_, by decide⟩
  show [] ++ [] ++ (LuaEvent demoOracle noTriggerGlobals "OnGameBoot").logs = _
  rw [luaEvent_missing_handler demoOracle noTriggerGlobals "OnGameBoot"
    (fun id => by simp [noTriggerGlobals])]
  exact rfl

/-- C8 (amended): initialization constructs the runtime, installs the
bindings, runs "lua/init.lua" strictly before "lua/user.lua", and raises
"OnGameBoot" after both; failure to find either bootstrap script is
silently tolerated while failure to execute one is logged, neither aborts
initialization, and the boot event is still raised when both scripts are
absent. -/
theorem luaInit_order (L : LuaOracle) (P : AssetProvider) (d : Bool) :
    List.Sublist
      [InitStep.constructRuntime, InitStep.setGlobal "print",
       InitStep.setGlobal "_VERSION", InitStep.registerTable "devilutionx",
       InitStep.runScriptStep "lua/init.lua", InitStep.runScriptStep "lua/user.lua",
       InitStep.raiseEvent "OnGameBoot"]
      (LuaInit L P d).steps
    ∧ (P.findAsset "lua/init.lua" = none → P.findAsset "lua/user.lua" = none →
        (LuaInit L P d).executed = []
        ∧ (LuaInit L P d).logs = (LuaEvent L L.freshGlobals "OnGameBoot").logs
        ∧ (LuaInit L P d).invoked = (LuaEvent L L.freshGlobals "OnGameBoot").invoked)
    ∧ (∀ size text g2 p, P.findAsset "lua/init.lua" = some size
        → P.openAsset "lua/init.lua" = true → 0 < size
        → P.readAsset "lua/init.lua" = some text
        → L.safe_script L.freshGlobals text = (g2, .invalid p)
        → ∃ e, e ∈ (LuaInit L P d).logs ∧ e.severity = .error) := by
  refine ⟨?_, ?_, ?_⟩
  · cases d <;> simp [LuaInit, luaOpenedLibraries] <;> decide
  · intro h1 h2
    simp [LuaInit, RunScript, h1, h2]
  · intro size text g2 p hf ho hs hr hexec
    have h := (runScript_error_logged L P L.freshGlobals "lua/init.lua" text size
      hf ho hs hr).2.1 g2 p hexec
    refine ⟨⟨.error, if p.luaType = LuaType.string
        then "Lua error: " ++ p.asStringPayload else "Unknown Lua error"⟩, ?_, rfl⟩
    show _ ∈ (LuaInit L P d).logs
    simp only [LuaInit]
    rw [h]
    simp

/-- Witness for the amended C8: instantiated at the all-missing provider,
the ordered steps occur, and with both scripts absent nothing is executed
while the boot event handlers are still dispatched. -/
theorem luaInit_order_witness :
    List.Sublist
      [InitStep.constructRuntime, InitStep.setGlobal "print",
       InitStep.setGlobal "_VERSION", InitStep.registerTable "devilutionx",
       InitStep.runScriptStep "lua/init.lua", InitStep.runScriptStep "lua/user.lua",
       InitStep.raiseEvent "OnGameBoot"]
      (LuaInit demoOracle missingProvider false).steps
    ∧ (LuaInit demoOracle missingProvider false).executed = [] := by
  have h := luaInit_order demoOracle missingProvider false
  exact ⟨h.1, (h.2.1 rfl rfl).1⟩

/-- C9: the capability groups opened at initialization are exactly the
allow-list the spec names (base, package/module loading, coroutines,
table containers, string operations, math, utf8, plus debug introspection
only in debug builds); in particular the io and os groups are never
opened, and debug is opened exactly in debug builds. -/
theorem luaOpenedLibraries_allowlist :
    (∀ d, luaOpenedLibraries d = specAllowedLibraries d)
    ∧ (∀ d, LuaLib.iolib ∉ luaOpenedLibraries d
        ∧ LuaLib.oslib ∉ luaOpenedLibraries d
        ∧ (LuaLib.debug ∈ luaOpenedLibraries d ↔ d = true)) := by
  constructor
  · intro d; cases d <;> rfl
  · intro d; cases d <;> exact ⟨by decide, by decide, by decide⟩

/-- C10: `LuaShutdown` empties the optional runtime state and is
idempotent — a second call from the post-shutdown state is a total,
fault-free operation returning the identical (still empty) state. -/
theorem luaShutdown_idempotent :
    ∀ s : Option LuaGlobals, LuaShutdown s = none
      ∧ LuaShutdown (LuaShutdown s) = LuaShutdown s :=
  fun _ => ⟨rfl, rfl⟩

end DevilutionLua
